import Mathlib

/-!
Verification of the tab/page pool (`core/browser.py`, class `BrowserCore`),
the session supervisor (`core/supervisor.py`, class `BrowserSupervisor`) and
the cookie store (`core/cookie.py`, class `CookieManager`) of the
astrbot_plugin_browser repository.

The embedding is shallow: each Python method becomes a Lean function over an
explicit state record.  Remote (Playwright) calls are uninterpreted effects; each
one that can fail or produce data is abstracted by an explicit parameter
(a success flag, a popup page, a remote title, ...).  A Python method that
can raise is modelled as returning `State × Except String α`: the state
component carries the in-place mutations performed before the raise, the
`Except` component is the returned value or the propagated exception.
-/

namespace Browser

/-- One open document/tab.  Python identifies a page by object identity and
reads its navigation URL via `p.url`; we carry a unique allocation id plus
the URL (after a successful `goto(url)` the page reports `url`). -/
structure Page where
  id : Nat
  url : String
deriving DecidableEq, Repr

/-- The configuration fields of `BrowserCore` that the modelled methods
read: `config["default_url"]`, `config["max_pages"]`. -/
structure Config where
  default_url : String
  max_pages : Nat
deriving Repr

/-- The mutable state of a `BrowserCore` instance:
`all_pages`, `current_index`, `page`, `_terminated`, plus presence flags for
`context` / `browser` / `playwright`, the popup-listener registration of
`click_coord`, a fresh-id counter for `context.new_page()`, and a counter of
writes performed on the cookie file (incremented by `save_cookies`). -/
structure BrowserState where
  all_pages : List Page
  current_index : Option Nat
  page : Option Page
  terminated : Bool
  has_context : Bool
  browser_proc : Bool
  playwright_conn : Bool
  popup_listener : Bool
  next_id : Nat
  cookie_writes : Nat
deriving DecidableEq, Repr

/-- `BrowserCore._require_context`: raises when terminated or when the
context is absent, otherwise returns the context. -/
def require_context (st : BrowserState) : Except String Unit :=
  if st.terminated then Except.error "BrowserManager 已终止"
  else if !st.has_context then Except.error "BrowserContext 未初始化"
  else Except.ok ()

/-- The index arithmetic of `BrowserCore._ensure_page` on a non-empty pool:
`if index is None: index = self.current_index or 0` followed by
`index = max(0, min(index, len(self.all_pages) - 1))` (the `max 0` is
implicit, the modelled index being a natural number: every call site of
`_ensure_page` passes a non-negative index). -/
def clamp_index (idx : Option Nat) (st : BrowserState) : Nat :=
  min (idx.getD (st.current_index.getD 0)) (st.all_pages.length - 1)

/-- `BrowserCore._ensure_page(index)`.
Empty pool: `context.new_page()` (a fresh page), `goto(default_url)`
(success abstracted by `gotoOk`; on failure the half-created page is never
appended and the exception propagates), append, `current_index = 0`.
Non-empty pool: clamp the index (`clamp_index`), update `current_index` and
`page`.  The freeze/unfreeze remote calls swallow their own errors and do
not touch the pool bookkeeping, so they have no footprint here. -/
def ensure_page (cfg : Config) (gotoOk : Bool) (idx : Option Nat)
    (st : BrowserState) : BrowserState × Except String Page :=
  match require_context st with
  | Except.error e => (st, Except.error e)
  | Except.ok _ =>
    if st.all_pages = [] then
      let fresh : Page := ⟨st.next_id, cfg.default_url⟩
      let st1 := { st with next_id := st.next_id + 1 }
      if gotoOk then
        ({ st1 with all_pages := st1.all_pages ++ [fresh],
                    current_index := some 0,
                    page := some fresh }, Except.ok fresh)
      else
        (st1, Except.error "Playwright 操作超时")
    else
      let pg := st.all_pages.getD (clamp_index idx st) ⟨0, ""⟩
      ({ st with current_index := some (clamp_index idx st), page := some pg },
       Except.ok pg)

/-- `BrowserCore._discard_page(page)`: close defensively (remote, errors
ignored), remove the page from `all_pages` when present, then restore the
current pointer: `_ensure_page()` when the pool emptied (which creates a
fresh default page), otherwise
`_ensure_page(min(self.current_index or 0, len - 1))`. -/
def discard_page (cfg : Config) (gotoOk : Bool) (p : Page)
    (st : BrowserState) : BrowserState × Except String Page :=
  let pages := if p ∈ st.all_pages then st.all_pages.erase p else st.all_pages
  let st1 := { st with all_pages := pages }
  if pages = [] then
    ensure_page cfg gotoOk none st1
  else
    ensure_page cfg gotoOk
      (some (min (st1.current_index.getD 0) (pages.length - 1))) st1

/-- `BrowserCore._safe_page_op(page, coro)`: run the operation; on any
exception, `_discard_page(page)` and re-raise.  `r` is the outcome of the
wrapped remote operation; when the discard itself raises, that exception
replaces the original one (Python `raise` never runs). -/
def safe_page_op {α : Type} (cfg : Config) (gotoOk : Bool) (p : Page)
    (r : Except String α) (st : BrowserState) :
    BrowserState × Except String α :=
  match r with
  | Except.ok a => (st, Except.ok a)
  | Except.error e =>
    let (st1, r1) := discard_page cfg gotoOk p st
    match r1 with
    | Except.error e1 => (st1, Except.error e1)
    | Except.ok _ => (st1, Except.error e)

/-- The eviction loop of `BrowserCore.search`:
`while len(self.all_pages) > self.config["max_pages"]: old = pop(0);
_discard_page(old)`.  The loop is modelled with fuel (`none` = the Python
loop does not terminate, which happens only for `max_pages = 0`).  An
exception raised by `_discard_page` propagates out of the loop. -/
def evict_loop (cfg : Config) (gotoOk : Bool) :
    Nat → BrowserState → Option (BrowserState × Except String Unit)
  | 0, st =>
    if st.all_pages.length > cfg.max_pages then none
    else some (st, Except.ok ())
  | fuel + 1, st =>
    if st.all_pages.length > cfg.max_pages then
      match st.all_pages with
      | [] => some (st, Except.ok ())
      | old :: rest =>
        let (st1, r) := discard_page cfg gotoOk old { st with all_pages := rest }
        match r with
        | Except.error e => some (st1, Except.error e)
        | Except.ok _ => evict_loop cfg gotoOk fuel st1
    else some (st, Except.ok ())

/-- `BrowserCore.save_cookies`: no-op without a context, otherwise reads
`context.cookies()` and writes them to the cookie file (one file write). -/
def core_save_cookies (st : BrowserState) : BrowserState :=
  if st.has_context then { st with cookie_writes := st.cookie_writes + 1 }
  else st

/-- `BrowserCore.search(url)`.
1. de-duplication: first page whose `url` matches is ensured current;
2. eviction loop while strictly over `max_pages`;
3. `_require_context().new_page()`, `goto(url)` + zoom under `try`
   (success abstracted by `gNav`); on failure `_discard_page` the half-open
   page and return the failure string "URL 访问失败";
4. on success append, make current, `save_cookies()`, return `None`.
`gEvict` abstracts the `goto(default_url)` of any pool rebuild performed by
`_discard_page` during eviction or after a failed navigation. -/
def search (cfg : Config) (gNav gEvict : Bool) (url : String)
    (st : BrowserState) :
    Option (BrowserState × Except String (Option String)) :=
  match st.all_pages.findIdx? (fun p => p.url == url) with
  | some i =>
    let (st1, r) := ensure_page cfg gEvict (some i) st
    match r with
    | Except.error e => some (st1, Except.error e)
    | Except.ok _ => some (st1, Except.ok none)
  | none =>
    match evict_loop cfg gEvict st.all_pages.length st with
    | none => none
    | some (st1, Except.error e) => some (st1, Except.error e)
    | some (st1, Except.ok _) =>
      match require_context st1 with
      | Except.error e => some (st1, Except.error e)
      | Except.ok _ =>
        let fresh : Page := ⟨st1.next_id, url⟩
        let st2 := { st1 with next_id := st1.next_id + 1 }
        if gNav then
          let st3 := { st2 with
            all_pages := st2.all_pages ++ [fresh],
            current_index := some st2.all_pages.length,
            page := some fresh }
          some (core_save_cookies st3, Except.ok none)
        else
          let (st3, r) := discard_page cfg gEvict fresh st2
          match r with
          | Except.error e => some (st3, Except.error e)
          | Except.ok _ => some (st3, Except.ok (some "URL 访问失败"))

/-- `BrowserCore.switch_tab(index)`: bounds-check first; out of range
returns the failure string without touching the pool, in range delegates to
`_ensure_page(index)` and returns `None`. -/
def switch_tab (cfg : Config) (gotoOk : Bool) (index : Int)
    (st : BrowserState) : BrowserState × Except String (Option String) :=
  if 0 ≤ index ∧ index < st.all_pages.length then
    let (st1, r) := ensure_page cfg gotoOk (some index.toNat) st
    match r with
    | Except.error e => (st1, Except.error e)
    | Except.ok _ => (st1, Except.ok none)
  else
    (st, Except.ok (some ("无效的标签页序号 " ++ toString index)))

/-- `BrowserCore.close_tab(index)`: bounds-check first; out of range returns
the failure string without touching the pool; in range reads the remote
title (`title` abstracts the value returned by `page.title()`), then
`_discard_page(page)` and reports the closed tab. -/
def close_tab (cfg : Config) (gotoOk : Bool) (title : String) (index : Int)
    (st : BrowserState) : BrowserState × Except String String :=
  if 0 ≤ index ∧ index < st.all_pages.length then
    let p := st.all_pages.getD index.toNat ⟨0, ""⟩
    let (st1, r) := discard_page cfg gotoOk p st
    match r with
    | Except.error e => (st1, Except.error e)
    | Except.ok _ => (st1, Except.ok ("已关闭标签页【" ++ title ++ "】"))
  else
    (st, Except.ok ("无效的标签页序号 " ++ toString index))

/-- `BrowserCore.swipe(coords)`: length check, `_ensure_page()`, then four
raw mouse calls that are NOT wrapped by `_safe_page_op` — a remote failure
(abstracted by `mouseOk = false`) propagates without discarding the page. -/
def swipe (cfg : Config) (gotoOk mouseOk : Bool) (coords : List Int)
    (st : BrowserState) : BrowserState × Except String (Option String) :=
  if coords.length ≠ 4 then (st, Except.ok (some "滑动参数格式错误"))
  else
    let (st1, r) := ensure_page cfg gotoOk none st
    match r with
    | Except.error e => (st1, Except.error e)
    | Except.ok _ =>
      if mouseOk then (st1, Except.ok none)
      else (st1, Except.error "Playwright 操作超时")

/-- `BrowserCore.go_back()`: `_ensure_page()`, then `page.go_back()` and
`wait_for_load_state` directly (no `_safe_page_op`): a remote failure
propagates without discarding the page. -/
def go_back (cfg : Config) (gotoOk backOk : Bool) (st : BrowserState) :
    BrowserState × Except String (Option String) :=
  let (st1, r) := ensure_page cfg gotoOk none st
  match r with
  | Except.error e => (st1, Except.error e)
  | Except.ok _ =>
    if backOk then (st1, Except.ok none)
    else (st1, Except.error "Playwright 操作超时")

/-- `BrowserCore.scroll_by(distance, direction)`: `_ensure_page()`, direction
dispatch (unknown direction returns the failure string), then the scroll
`evaluate` wrapped by `_safe_page_op` (outcome abstracted by `evalOk`). -/
def scroll_by (cfg : Config) (gotoOk evalOk : Bool) (distance : Int)
    (direction : String) (st : BrowserState) :
    BrowserState × Except String (Option String) :=
  let (st1, r) := ensure_page cfg gotoOk none st
  match r with
  | Except.error e => (st1, Except.error e)
  | Except.ok pg =>
    if direction = "上" ∨ direction = "下" ∨ direction = "左" ∨ direction = "右" then
      let remote : Except String Unit :=
        if evalOk then Except.ok () else Except.error "Playwright 操作超时"
      let (st2, r2) := safe_page_op cfg gotoOk pg remote st1
      match r2 with
      | Except.error e => (st2, Except.error e)
      | Except.ok _ => (st2, Except.ok none)
    else
      (st1, Except.ok (some "无效的滚动方向"))

/-- `BrowserCore.click_coord(coords)`.
Length check; `_ensure_page()`; register the one-shot `popup` listener
(tracked by `popup_listener`); run the click through `_safe_page_op`+
`_safe_await` (outcome `clickOk`; a popup produced during the click —
`popup` — is appended to `all_pages` and made current by the listener,
with no capacity check); the `finally` block always removes the listener.
On a failed click `_safe_page_op` discards the clicked page and the
exception propagates after the listener removal. -/
def click_coord (cfg : Config) (gotoOk : Bool) (popup : Option Page)
    (clickOk : Bool) (coords : List Int) (st : BrowserState) :
    BrowserState × Except String (Option String) :=
  if coords.length ≠ 2 then (st, Except.ok (some "坐标参数格式错误"))
  else
    let (st1, r) := ensure_page cfg gotoOk none st
    match r with
    | Except.error e => (st1, Except.error e)
    | Except.ok pg =>
      let st2 := { st1 with popup_listener := true }
      let st3 :=
        match popup with
        | none => st2
        | some pp =>
          { st2 with all_pages := st2.all_pages ++ [pp],
                     current_index := some st2.all_pages.length,
                     page := some pp }
      if clickOk then
        ({ st3 with popup_listener := false }, Except.ok none)
      else
        let (st4, r2) := discard_page cfg gotoOk pg st3
        let st5 := { st4 with popup_listener := false }
        match r2 with
        | Except.error e2 => (st5, Except.error e2)
        | Except.ok _ => (st5, Except.error "Playwright 操作超时")

/-- Failure flags for the individual teardown sub-steps of `terminate`; each
sub-step is wrapped in `safe_close` (try/except pass), and every state
assignment sits outside the try, so the flags cannot influence the result. -/
structure TermFailures where
  page_close_fails : Bool
  context_close_fails : Bool
  browser_close_fails : Bool
  playwright_stop_fails : Bool
deriving DecidableEq, Repr

/-- `BrowserCore.terminate()`: early return when already terminated, else
set `_terminated`, then best-effort teardown.  The cookie-saving step is
`safe_close(self.save_cookies, "save_cookies")`: `safe_close` performs
`getattr(obj, close_method)` on `obj = self.save_cookies` (a bound method),
which raises `AttributeError` and is swallowed — so `save_cookies` is never
actually invoked and the cookie file is not written.  All pages are closed
(failures swallowed) and the list cleared, then context, browser and
playwright are closed (failures swallowed) and nulled out. -/
def terminate (st : BrowserState) (_f : TermFailures) : BrowserState :=
  if st.terminated then st
  else
    { st with
      terminated := true,
      all_pages := [],
      current_index := none,
      page := none,
      has_context := false,
      browser_proc := false,
      playwright_conn := false }

/-- Bool-valued pool invariant: whenever `all_pages` is non-empty,
`current_index` is `some i` with `i` a valid index. -/
def poolInvB (st : BrowserState) : Bool :=
  decide (st.all_pages = []) ||
    st.current_index.any (fun i => decide (i < st.all_pages.length))

/-- A live (operational) handle: not terminated and context present. -/
def live (st : BrowserState) : Prop :=
  st.terminated = false ∧ st.has_context = true

/-- Chain of `search` calls, all remote operations succeeding — the driver
for the Scenario A computation. -/
def search_seq (cfg : Config) (urls : List String) (st : BrowserState) :
    Option BrowserState :=
  match urls with
  | [] => some st
  | u :: rest =>
    match search cfg true true u st with
    | none => none
    | some (st1, _) => search_seq cfg rest st1

end Browser

namespace Supervisor

/-- The two `asyncio.Lock` objects of `BrowserSupervisor`: `self._lock`
(the dispatch lock) and `self._restart_lock` (the restart lock). -/
inductive LockId
  | dispatch
  | restart
deriving DecidableEq, Repr

/-- `BrowserSupervisor` state: the optional owned `BrowserCore` (represented
by the id of its generation, so that restarts are observable), the
`_last_active` timestamp, whether the monitor task is running, an id counter
for freshly created cores, and the configured thresholds. -/
structure SupState where
  browser : Option Nat
  last_active : Nat
  monitor_running : Bool
  next_engine_id : Nat
  idle_timeout : Nat
  max_memory_percent : Nat
deriving DecidableEq, Repr

/-- `BrowserSupervisor._start_browser()`: no-op when a browser exists,
otherwise construct + `initialize()` a fresh `BrowserCore` (success
abstracted by `initOk`); on failure the exception propagates and
`self.browser` stays `None`. -/
def start_browser (initOk : Bool) (st : SupState) :
    SupState × Except String Unit :=
  if st.browser.isSome then (st, Except.ok ())
  else if initOk then
    ({ st with browser := some st.next_engine_id,
               next_engine_id := st.next_engine_id + 1 }, Except.ok ())
  else (st, Except.error "BrowserCore.initialize 失败")

/-- `BrowserSupervisor.start()`: under the dispatch lock, `_start_browser()`
when the browser is absent (an initialize failure propagates, skipping the
rest), then create the monitor task when none is running. -/
def start (initOk : Bool) (st : SupState) : SupState × Except String Unit :=
  let (st1, r) :=
    if st.browser.isNone then start_browser initOk st else (st, Except.ok ())
  match r with
  | Except.error e => (st1, Except.error e)
  | Except.ok _ =>
    if st1.monitor_running then (st1, Except.ok ())
    else ({ st1 with monitor_running := true }, Except.ok ())

/-- `BrowserSupervisor.stop()`: cancel the monitor task and null it out,
then `terminate()` the browser (exceptions swallowed) and null it out. -/
def stop (st : SupState) : SupState :=
  { st with monitor_running := false, browser := none }

/-- Statistics observed from one `_restart_browser()` run: number of
`while` iterations (= initialize attempts), the backoff sleeps performed in
order, and the locks acquired. -/
structure RestartStats where
  attempts : Nat
  sleeps : List Nat
  locks : List LockId
deriving DecidableEq, Repr

/-- The retry loop of `_restart_browser`: at most `fuel` further iterations
(`fuel = 3` at entry, matching `while attempts < 3`).  Each iteration tears
down any existing browser (terminate swallowed, handle nulled), then tries
`_start_browser()` — the head of `outs` gives the `initialize()`
outcome of that attempt.  Success sets `_last_active = now` and returns; failure sleeps 2
seconds and continues. -/
def restart_attempts (now : Nat) :
    List Bool → Nat → SupState → SupState × Nat × List Nat
  | _, 0, st => (st, 0, [])
  | outs, fuel + 1, st =>
    let st1 := { st with browser := none }
    if outs.headD false then
      ({ st1 with browser := some st1.next_engine_id,
                  next_engine_id := st1.next_engine_id + 1,
                  last_active := now }, 1, [])
    else
      let (st2, a, s) := restart_attempts now outs.tail fuel st1
      (st2, a + 1, 2 :: s)

/-- `BrowserSupervisor._restart_browser()`: the whole retry loop runs under
`self._restart_lock` (and only that lock); after 3 failed attempts it gives
up with the browser left unset. -/
def restart_browser (now : Nat) (outs : List Bool) (st : SupState) :
    SupState × RestartStats :=
  let (st1, a, s) := restart_attempts now outs 3 st
  (st1, ⟨a, s, [LockId.restart]⟩)

/-- `BrowserSupervisor.call(method, **kwargs)`: under the dispatch lock,
`_restart_browser()` when the browser is absent, update `_last_active`,
`getattr` the method (absent method — or a browser still absent after a
failed restart — raises `AttributeError`), then invoke it (`methodResult`
abstracts the outcome of the invoked coroutine).  The returned `List LockId`
records every lock acquired during the call. -/
def call (now : Nat) (outs : List Bool) (methodExists : Bool)
    (methodResult : Except String Unit) (st : SupState) :
    SupState × Except String Unit × List LockId :=
  let (st1, restartLocks) :=
    if st.browser.isNone then
      let (s, stats) := restart_browser now outs st
      (s, stats.locks)
    else (st, [])
  let st2 := { st1 with last_active := now }
  let locks := LockId.dispatch :: restartLocks
  match st2.browser with
  | none => (st2, Except.error "BrowserCore 没有方法", locks)
  | some _ =>
    if methodExists then (st2, methodResult, locks)
    else (st2, Except.error "BrowserCore 没有方法", locks)

/-- One iteration of `BrowserSupervisor._monitor_loop` (after the interval
sleep): if `time.time() - self._last_active > self.idle_timeout`, `stop()`
the whole engine and skip the memory check; else if the host memory
percentage exceeds `max_memory_percent`, `_restart_browser()`. -/
def monitor_tick (now mem : Nat) (outs : List Bool) (st : SupState) :
    SupState :=
  if now - st.last_active > st.idle_timeout then stop st
  else if mem > st.max_memory_percent then (restart_browser now outs st).1
  else st

end Supervisor

namespace Cookie

/-- A JSON scalar as it appears in a cookie record field. -/
inductive JVal
  | null
  | str (s : String)
  | num (n : Int)
  | boolean (b : Bool)
deriving DecidableEq, Repr

/-- One persisted cookie record: a JSON object, i.e. an ordered list of
field/value pairs (`name`, `value`, `domain`, `path`, and the optional
`expires`, `sameSite`, `httpOnly`, `secure`). -/
abbrev CookieRec := List (String × JVal)

/-- The durable cookie file as `load_cookies` can find it. -/
inductive FileState
  | missing
  | malformed
  | content (cs : List CookieRec)
deriving DecidableEq, Repr

/-- `CookieManager.save_cookies(cookies)`: `json.dump` of the record list,
verbatim (null-valued fields included as JSON `null`). -/
def save_cookies (cs : List CookieRec) : FileState :=
  FileState.content cs

/-- The per-record filter of `CookieManager.load_cookies`:
`SetCookieParam(**{k: v for k, v in c.items() if v is not None})` keeps the
insertion order and drops every null-valued field. -/
def dropNulls (c : CookieRec) : CookieRec :=
  c.filter fun kv =>
    match kv.2 with
    | JVal.null => false
    | _ => true

/-- `CookieManager.load_cookies()`: missing file → write back an empty list
and return `[]`; malformed JSON → return `[]` leaving the file untouched;
otherwise parse and build a `SetCookieParam` per record, dropping
null-valued fields. -/
def load_cookies : FileState → List CookieRec
  | FileState.missing => []
  | FileState.malformed => []
  | FileState.content cs => cs.map dropNulls

end Cookie

/-! Concrete states used by the scenario computations and witnesses. -/

/-- A configuration with `max_pages = 3`, as in Scenario A. -/
def cfgA : Browser.Config := ⟨"https://www.bing.com", 3⟩

/-- A configuration with `max_pages = 1`, to exhibit popup overflow. -/
def cfgTight : Browser.Config := ⟨"https://www.bing.com", 1⟩

/-- A freshly initialized, empty, live pool. -/
def stEmpty : Browser.BrowserState :=
  ⟨[], none, none, false, true, true, true, false, 0, 0⟩

/-- A live pool holding two pages "x" and "y", the second current. -/
def stTwo : Browser.BrowserState :=
  ⟨[⟨0, "x"⟩, ⟨1, "y"⟩], some 1, some ⟨1, "y"⟩, false, true, true, true, false, 2, 0⟩

/-- A live single-page pool. -/
def stOne : Browser.BrowserState :=
  ⟨[⟨0, "x"⟩], some 0, some ⟨0, "x"⟩, false, true, true, true, false, 1, 0⟩

/-- A failure pattern for `terminate` in which every teardown sub-step
raises (and is swallowed). -/
def allFail : Browser.TermFailures := ⟨true, true, true, true⟩

/-- A failure pattern for `terminate` in which every sub-step succeeds. -/
def noFail : Browser.TermFailures := ⟨false, false, false, false⟩

/-- A fresh supervisor: no browser, no monitor, default thresholds. -/
def supFresh : Supervisor.SupState := ⟨none, 0, false, 0, 300, 90⟩

/-- A running supervisor owning engine 4, idle since time 0. -/
def supIdle : Supervisor.SupState := ⟨some 4, 0, true, 5, 300, 90⟩

/-- A cookie record carrying a null-valued optional field. -/
def recWithNull : Cookie.CookieRec :=
  [("name", Cookie.JVal.str "sid"), ("value", Cookie.JVal.str "42"),
   ("domain", Cookie.JVal.str ".example.com"), ("path", Cookie.JVal.str "/"),
   ("expires", Cookie.JVal.null), ("sameSite", Cookie.JVal.null)]

/-! ## Supporting lemmas -/

open Browser Supervisor Cookie

theorem require_context_of_live (st : BrowserState) (h : live st) :
    require_context st = Except.ok () := by
  obtain ⟨h1, h2⟩ := h
  simp [require_context, h1, h2]

theorem ensure_page_flags (cfg : Config) (g : Bool) (idx : Option Nat)
    (st : BrowserState) :
    (ensure_page cfg g idx st).1.terminated = st.terminated ∧
    (ensure_page cfg g idx st).1.has_context = st.has_context := by
  unfold ensure_page
  cases hrc : require_context st with
  | error e => simp
  | ok u =>
    by_cases he : st.all_pages = [] <;> by_cases hg : g <;>
      simp [he, hg]

theorem ensure_page_live (cfg : Config) (g : Bool) (idx : Option Nat)
    (st : BrowserState) (h : live st) :
    live (ensure_page cfg g idx st).1 := by
  obtain ⟨h1, h2⟩ := ensure_page_flags cfg g idx st
  exact ⟨h1.trans h.1, h2.trans h.2⟩

theorem clamp_index_lt (idx : Option Nat) (st : BrowserState)
    (hne : st.all_pages ≠ []) :
    clamp_index idx st < st.all_pages.length :=
  Nat.lt_of_le_of_lt (Nat.min_le_right _ _)
    (Nat.sub_lt (List.length_pos.mpr hne) Nat.one_pos)

theorem ensure_page_eq_of_ne (cfg : Config) (g : Bool) (idx : Option Nat)
    (st : BrowserState) (h : live st) (hne : st.all_pages ≠ []) :
    ensure_page cfg g idx st =
      ({ st with current_index := some (clamp_index idx st),
                 page := some (st.all_pages.getD (clamp_index idx st) ⟨0, ""⟩) },
       Except.ok (st.all_pages.getD (clamp_index idx st) ⟨0, ""⟩)) := by
  unfold ensure_page
  rw [require_context_of_live st h]
  simp [hne]

theorem ensure_page_eq_of_empty (cfg : Config) (g : Bool) (idx : Option Nat)
    (st : BrowserState) (h : live st) (he : st.all_pages = []) :
    ensure_page cfg g idx st =
      (if g then
        ({ st with all_pages := st.all_pages ++ [⟨st.next_id, cfg.default_url⟩],
                   current_index := some 0,
                   page := some ⟨st.next_id, cfg.default_url⟩,
                   next_id := st.next_id + 1 }, Except.ok ⟨st.next_id, cfg.default_url⟩)
      else
        ({ st with next_id := st.next_id + 1 }, Except.error "Playwright 操作超时")) := by
  unfold ensure_page
  rw [require_context_of_live st h]
  by_cases hg : g <;> simp [he, hg]

theorem ensure_page_poolInv (cfg : Config) (g : Bool) (idx : Option Nat)
    (st : BrowserState) (h : live st) :
    poolInvB (ensure_page cfg g idx st).1 = true := by
  by_cases he : st.all_pages = []
  · rw [ensure_page_eq_of_empty cfg g idx st h he]
    by_cases hg : g <;> simp [hg, poolInvB, he]
  · rw [ensure_page_eq_of_ne cfg g idx st h he]
    simp only [poolInvB, Option.any_some, Bool.or_eq_true, decide_eq_true_eq]
    exact Or.inr (clamp_index_lt idx st he)

theorem ensure_page_ok_nonempty (cfg : Config) (g : Bool) (idx : Option Nat)
    (st : BrowserState) (h : live st) (p : Page)
    (hok : (ensure_page cfg g idx st).2 = Except.ok p) :
    (ensure_page cfg g idx st).1.all_pages ≠ [] := by
  by_cases he : st.all_pages = []
  · rw [ensure_page_eq_of_empty cfg g idx st h he] at hok ⊢
    by_cases hg : g
    · simp [hg]
    · simp [hg] at hok
  · rw [ensure_page_eq_of_ne cfg g idx st h he]
    simpa using he

theorem ensure_page_pages_of_ne (cfg : Config) (g : Bool) (idx : Option Nat)
    (st : BrowserState) (h : live st) (hne : st.all_pages ≠ []) :
    (ensure_page cfg g idx st).1.all_pages = st.all_pages ∧
    ∃ p, (ensure_page cfg g idx st).2 = Except.ok p ∧ p ∈ st.all_pages := by
  rw [ensure_page_eq_of_ne cfg g idx st h hne]
  refine ⟨rfl, _, rfl, ?_⟩
  rw [List.getD_eq_getElem?_getD, List.getElem?_eq_getElem (clamp_index_lt idx st hne)]
  exact List.getElem_mem _

theorem ensure_page_isOk (cfg : Config) (idx : Option Nat)
    (st : BrowserState) (h : live st) :
    ∃ p, (ensure_page cfg true idx st).2 = Except.ok p := by
  by_cases hne : st.all_pages = []
  · rw [ensure_page_eq_of_empty cfg true idx st h hne]
    simp
  · obtain ⟨_, p, hp, _⟩ := ensure_page_pages_of_ne cfg true idx st h hne
    exact ⟨p, hp⟩

theorem ensure_page_pages_true (cfg : Config) (idx : Option Nat)
    (st : BrowserState) (h : live st) :
    (ensure_page cfg true idx st).1.all_pages =
      if st.all_pages = [] then [⟨st.next_id, cfg.default_url⟩]
      else st.all_pages := by
  by_cases hne : st.all_pages = []
  · rw [ensure_page_eq_of_empty cfg true idx st h hne]
    simp [hne]
  · rw [if_neg hne]
    exact (ensure_page_pages_of_ne cfg true idx st h hne).1

theorem discard_page_eq (cfg : Config) (g : Bool) (p : Page)
    (st : BrowserState) :
    discard_page cfg g p st =
      ensure_page cfg g
        (if ({ st with all_pages :=
                if p ∈ st.all_pages then st.all_pages.erase p
                else st.all_pages } : BrowserState).all_pages = [] then none
         else some (min (st.current_index.getD 0)
            ((if p ∈ st.all_pages then st.all_pages.erase p
              else st.all_pages).length - 1)))
        { st with all_pages :=
            if p ∈ st.all_pages then st.all_pages.erase p
            else st.all_pages } := by
  unfold discard_page
  split <;> split <;> simp_all

theorem discard_page_flags (cfg : Config) (g : Bool) (p : Page)
    (st : BrowserState) :
    (discard_page cfg g p st).1.terminated = st.terminated ∧
    (discard_page cfg g p st).1.has_context = st.has_context := by
  rw [discard_page_eq]
  exact ensure_page_flags cfg g _ _

theorem discard_page_live (cfg : Config) (g : Bool) (p : Page)
    (st : BrowserState) (h : live st) :
    live (discard_page cfg g p st).1 := by
  obtain ⟨h1, h2⟩ := discard_page_flags cfg g p st
  exact ⟨h1.trans h.1, h2.trans h.2⟩

theorem discard_page_poolInv (cfg : Config) (g : Bool) (p : Page)
    (st : BrowserState) (h : live st) :
    poolInvB (discard_page cfg g p st).1 = true := by
  rw [discard_page_eq]
  exact ensure_page_poolInv cfg g _ _ ⟨h.1, h.2⟩

theorem core_save_cookies_pool (st : BrowserState) :
    (core_save_cookies st).all_pages = st.all_pages ∧
    (core_save_cookies st).current_index = st.current_index ∧
    poolInvB (core_save_cookies st) = poolInvB st := by
  unfold core_save_cookies
  split <;> simp [poolInvB]

theorem evict_loop_spec (cfg : Config) (g : Bool) :
    ∀ (fuel : Nat) (st st1 : BrowserState) (r : Except String Unit),
      live st → poolInvB st = true →
      evict_loop cfg g fuel st = some (st1, r) →
      live st1 ∧ poolInvB st1 = true ∧
      (r = Except.ok () → st1.all_pages.length ≤ cfg.max_pages) := by
  intro fuel
  induction fuel with
  | zero =>
    intro st st1 r hl hinv hev
    unfold evict_loop at hev
    by_cases hgt : st.all_pages.length > cfg.max_pages
    · simp [hgt] at hev
    · simp [hgt] at hev
      obtain ⟨rfl, rfl⟩ := hev
      exact ⟨hl, hinv, fun _ => Nat.le_of_not_lt hgt⟩
  | succ n ih =>
    intro st st1 r hl hinv hev
    unfold evict_loop at hev
    by_cases hgt : st.all_pages.length > cfg.max_pages
    · rw [if_pos hgt] at hev
      cases hpl : st.all_pages with
      | nil =>
        rw [hpl] at hev
        simp at hev
        obtain ⟨rfl, rfl⟩ := hev
        refine ⟨hl, hinv, fun _ => ?_⟩
        rw [hpl]
        exact Nat.zero_le _
      | cons old rest =>
        rw [hpl] at hev
        simp only at hev
        have hlmid : live { st with all_pages := rest } := ⟨hl.1, hl.2⟩
        rcases hd : discard_page cfg g old { st with all_pages := rest } with ⟨s2, r2⟩
        rw [hd] at hev
        have hl2 : live s2 := by
          have := discard_page_live cfg g old { st with all_pages := rest } hlmid
          rwa [hd] at this
        have hinv2 : poolInvB s2 = true := by
          have := discard_page_poolInv cfg g old { st with all_pages := rest } hlmid
          rwa [hd] at this
        cases r2 with
        | error e =>
          simp at hev
          obtain ⟨rfl, rfl⟩ := hev
          exact ⟨hl2, hinv2, by simp⟩
        | ok q =>
          simp only at hev
          exact ih s2 st1 r hl2 hinv2 hev
    · rw [if_neg hgt] at hev
      simp at hev
      obtain ⟨rfl, rfl⟩ := hev
      exact ⟨hl, hinv, fun _ => Nat.le_of_not_lt hgt⟩

theorem poolInvB_append_last (st : BrowserState) (l : List Page) (p : Page)
    (i : Nat) (hp : st.all_pages = l ++ [p]) (hi : st.current_index = some i)
    (hil : i = l.length) : poolInvB st = true := by
  simp [poolInvB, hp, hi, hil]

theorem search_poolInv (cfg : Config) (gN gE : Bool) (url : String)
    (st st1 : BrowserState) (r : Except String (Option String))
    (h : live st) (hinv : poolInvB st = true)
    (hs : search cfg gN gE url st = some (st1, r)) :
    poolInvB st1 = true := by
  unfold search at hs
  cases hf : st.all_pages.findIdx? (fun p => p.url == url) with
  | some i =>
    rw [hf] at hs
    dsimp only at hs
    rcases he : ensure_page cfg gE (some i) st with ⟨s2, r2⟩
    rw [he] at hs
    have hinv2 : poolInvB s2 = true := by
      have := ensure_page_poolInv cfg gE (some i) st h
      rwa [he] at this
    cases r2 with
    | error e => simp at hs; obtain ⟨rfl, rfl⟩ := hs; exact hinv2
    | ok p => simp at hs; obtain ⟨rfl, rfl⟩ := hs; exact hinv2
  | none =>
    rw [hf] at hs
    dsimp only at hs
    cases hev : evict_loop cfg gE st.all_pages.length st with
    | none => rw [hev] at hs; simp at hs
    | some pr =>
      rcases pr with ⟨s2, r2⟩
      rw [hev] at hs
      cases r2 with
      | error e =>
        simp at hs
        obtain ⟨rfl, rfl⟩ := hs
        exact (evict_loop_spec cfg gE st.all_pages.length st s2
          (Except.error e) h hinv hev).2.1
      | ok u =>
        obtain ⟨hl2, hinv2, _⟩ :=
          evict_loop_spec cfg gE st.all_pages.length st s2 (Except.ok u)
            h hinv hev
        dsimp only at hs
        rw [require_context_of_live s2 hl2] at hs
        dsimp only at hs
        by_cases hg : gN
        · rw [if_pos (by simp [hg])] at hs
          simp at hs
          obtain ⟨rfl, rfl⟩ := hs
          have hpool := (core_save_cookies_pool
            { s2 with all_pages := s2.all_pages ++ [⟨s2.next_id, url⟩],
                      current_index := some s2.all_pages.length,
                      page := some ⟨s2.next_id, url⟩,
                      next_id := s2.next_id + 1 }).2.2
          rw [hpool]
          exact poolInvB_append_last _ s2.all_pages ⟨s2.next_id, url⟩
            s2.all_pages.length rfl rfl rfl
        · rw [if_neg (by simp [hg])] at hs
          rcases hd : discard_page cfg gE ⟨s2.next_id, url⟩
              { s2 with next_id := s2.next_id + 1 } with ⟨s3, r3⟩
          rw [hd] at hs
          have hl3 : live { s2 with next_id := s2.next_id + 1 } := ⟨hl2.1, hl2.2⟩
          have hinv3 : poolInvB s3 = true := by
            have := discard_page_poolInv cfg gE ⟨s2.next_id, url⟩
              { s2 with next_id := s2.next_id + 1 } hl3
            rwa [hd] at this
          cases r3 with
          | error e => simp at hs; obtain ⟨rfl, rfl⟩ := hs; exact hinv3
          | ok q => simp at hs; obtain ⟨rfl, rfl⟩ := hs; exact hinv3

theorem click_coord_poolInv (cfg : Config) (g : Bool) (popup : Option Page)
    (clickOk : Bool) (coords : List Int) (st : BrowserState)
    (h : live st) (hinv : poolInvB st = true) :
    poolInvB (click_coord cfg g popup clickOk coords st).1 = true := by
  unfold click_coord
  by_cases hc : coords.length ≠ 2
  · rw [if_pos hc]; exact hinv
  · rw [if_neg hc]
    rcases he : ensure_page cfg g none st with ⟨s1, r1⟩
    have hinv1 : poolInvB s1 = true := by
      have := ensure_page_poolInv cfg g none st h
      rwa [he] at this
    have hl1 : live s1 := by
      have := ensure_page_live cfg g none st h
      rwa [he] at this
    cases r1 with
    | error e => exact hinv1
    | ok pg =>
      dsimp only
      cases popup with
      | none =>
        by_cases hck : clickOk
        · rw [if_pos (by simp [hck])]
          exact hinv1
        · rw [if_neg (by simp [hck])]
          have hl3 : live { s1 with popup_listener := true } := ⟨hl1.1, hl1.2⟩
          rcases hd : discard_page cfg g pg { s1 with popup_listener := true }
            with ⟨s4, r4⟩
          have hinv4 : poolInvB s4 = true := by
            have := discard_page_poolInv cfg g pg
              { s1 with popup_listener := true } hl3
            rwa [hd] at this
          cases r4 <;> exact hinv4
      | some pp =>
        by_cases hck : clickOk
        · rw [if_pos (by simp [hck])]
          exact poolInvB_append_last _ s1.all_pages pp s1.all_pages.length
            rfl rfl rfl
        · rw [if_neg (by simp [hck])]
          have hl3 : live { s1 with
              popup_listener := true
              all_pages := s1.all_pages ++ [pp]
              current_index := some s1.all_pages.length
              page := some pp } := ⟨hl1.1, hl1.2⟩
          rcases hd : discard_page cfg g pg { s1 with
              popup_listener := true
              all_pages := s1.all_pages ++ [pp]
              current_index := some s1.all_pages.length
              page := some pp } with ⟨s4, r4⟩
          have hinv4 : poolInvB s4 = true := by
            have := discard_page_poolInv cfg g pg { s1 with
              popup_listener := true
              all_pages := s1.all_pages ++ [pp]
              current_index := some s1.all_pages.length
              page := some pp } hl3
            rwa [hd] at this
          cases r4 <;> exact hinv4

theorem restart_attempts_attempts_le (now : Nat) :
    ∀ (fuel : Nat) (outs : List Bool) (st : SupState),
      (restart_attempts now outs fuel st).2.1 ≤ fuel := by
  intro fuel
  induction fuel with
  | zero => intro outs st; simp [restart_attempts]
  | succ n ih =>
    intro outs st
    unfold restart_attempts
    rw [List.headD_eq_head?]
    by_cases hh : outs.head?.getD false
    · simp [hh]
    · simp only [Bool.not_eq_true] at hh
      simp only [hh, Bool.false_eq_true, if_false]
      rcases hra : restart_attempts now outs.tail n { st with browser := none }
        with ⟨s2, a2, sl2⟩
      have := ih outs.tail { st with browser := none }
      rw [hra] at this
      simpa using Nat.succ_le_succ this

theorem restart_attempts_sleeps_two (now : Nat) :
    ∀ (fuel : Nat) (outs : List Bool) (st : SupState) (s : Nat),
      s ∈ (restart_attempts now outs fuel st).2.2 → s = 2 := by
  intro fuel
  induction fuel with
  | zero => intro outs st s hs; simp [restart_attempts] at hs
  | succ n ih =>
    intro outs st s hs
    unfold restart_attempts at hs
    rw [List.headD_eq_head?] at hs
    by_cases hh : outs.head?.getD false
    · simp [hh] at hs
    · simp only [Bool.not_eq_true] at hh
      simp only [hh, Bool.false_eq_true, if_false] at hs
      rcases hra : restart_attempts now outs.tail n { st with browser := none }
        with ⟨s2, a2, sl2⟩
      rw [hra] at hs
      simp only [List.mem_cons] at hs
      rcases hs with rfl | hmem
      · rfl
      · have := ih outs.tail { st with browser := none } s
        rw [hra] at this
        exact this hmem

theorem restart_attempts_all_fail (now : Nat) :
    ∀ (fuel : Nat) (outs : List Bool) (st : SupState),
      (outs.take (fuel + 1)).all (fun b => !b) = true →
      restart_attempts now outs (fuel + 1) st =
        ({ st with browser := none }, fuel + 1, List.replicate (fuel + 1) 2) := by
  intro fuel
  induction fuel with
  | zero =>
    intro outs st hall
    have hh : outs.head?.getD false = false := by
      cases outs with
      | nil => rfl
      | cons b rest =>
        rw [List.take_succ_cons, List.all_cons, Bool.and_eq_true] at hall
        have hb : b = false := by simpa using hall.1
        simp [hb]
    unfold restart_attempts
    rw [List.headD_eq_head?]
    simp only [hh, Bool.false_eq_true, if_false]
    unfold restart_attempts
    simp
  | succ n ih =>
    intro outs st hall
    have hh : outs.head?.getD false = false := by
      cases outs with
      | nil => rfl
      | cons b rest =>
        rw [List.take_succ_cons, List.all_cons, Bool.and_eq_true] at hall
        have hb : b = false := by simpa using hall.1
        simp [hb]
    have htail : (outs.tail.take (n + 1)).all (fun b => !b) = true := by
      cases outs with
      | nil => simp
      | cons b rest =>
        rw [List.take_succ_cons, List.all_cons, Bool.and_eq_true] at hall
        exact hall.2
    unfold restart_attempts
    rw [List.headD_eq_head?]
    simp only [hh, Bool.false_eq_true, if_false]
    rw [ih outs.tail { st with browser := none } htail]
    simp [List.replicate_succ]

theorem restart_attempts_head_true (now : Nat) (fuel : Nat) (outs : List Bool)
    (st : SupState) (hh : outs.headD false = true) :
    restart_attempts now outs (fuel + 1) st =
      ({ st with browser := some st.next_engine_id,
                 next_engine_id := st.next_engine_id + 1,
                 last_active := now }, 1, []) := by
  rw [List.headD_eq_head?] at hh
  unfold restart_attempts
  rw [List.headD_eq_head?]
  simp [hh]

/-! ## Claim theorems -/

/-- Claim C1 (refuted by evaluation; the code is the defect): starting from
an empty pool with `max_pages = 3`, opening "a", "b", "c", "d" in sequence
leaves the pool equal to ["a", "b", "c", "d"] (size 4 > `max_pages`) with
"d" current — not ["b", "c", "d"] as the claim states — because
`BrowserCore.search` evicts only while the pool is STRICTLY over
`max_pages` (`while len(self.all_pages) > self.config["max_pages"]`),
so no eviction happens before the fourth open. -/
theorem C1_search_overflow_scenario :
    (Browser.search_seq cfgA ["a", "b", "c", "d"] stEmpty).map
        (fun st => (st.all_pages.map Browser.Page.url, st.current_index)) =
      some (["a", "b", "c", "d"], some 3) ∧
    (Browser.search_seq cfgA ["a", "b", "c", "d"] stEmpty).map
        (fun st => decide (st.all_pages.length ≤ cfgA.max_pages)) =
      some false := by
  constructor
  · rfl
  · rfl

/-- Claim C3, counterexample: on a fresh supervisor (`browser = None`),
`start()` DOES create the engine (it calls `_start_browser()` before
launching the monitor), so "after start() returns, no engine process has
been created" is false. -/
theorem C3_start_creates_engine_counterexample :
    (Supervisor.start true supFresh).1.browser = some 0 ∧
    (Supervisor.start true supFresh).1.browser ≠ none ∧
    (Supervisor.start true supFresh).2 = Except.ok () := by
  refine ⟨rfl, by decide, rfl⟩

/-- Claim C3, amended: `start()` launches the background monitor loop if it
is not already running, and additionally force-creates the engine when it is
absent (first engine creation is eager, not lazy): after a successful
`start()` the engine exists; a creation failure propagates out of `start()`
leaving the state unchanged, and an existing engine is left untouched. -/
theorem C3_start_amended (initOk : Bool) (st : Supervisor.SupState) :
    ((Supervisor.start initOk st).2 = Except.ok () →
      (Supervisor.start initOk st).1.monitor_running = true) ∧
    (st.browser = none → initOk = true →
      (Supervisor.start initOk st).1.browser = some st.next_engine_id ∧
      (Supervisor.start initOk st).2 = Except.ok ()) ∧
    (st.browser = none → initOk = false →
      (Supervisor.start initOk st).1 = st ∧
      (Supervisor.start initOk st).2 = Except.error "BrowserCore.initialize 失败") ∧
    (∀ e, st.browser = some e →
      (Supervisor.start initOk st).1.browser = some e) := by
  unfold Supervisor.start Supervisor.start_browser
  cases hb : st.browser with
  | none =>
    by_cases hi : initOk
    · by_cases hm : st.monitor_running <;> simp [hb, hi, hm]
    · simp only [Bool.not_eq_true] at hi
      simp [hb, hi]
  | some e =>
    by_cases hm : st.monitor_running <;> simp [hb, hm]

/-- Witness for the amended C3 at a concrete input: a fresh supervisor with
a succeeding initialize. -/
theorem C3_start_amended_witness :
    (Supervisor.start true supFresh).1.browser = some supFresh.next_engine_id ∧
    (Supervisor.start true supFresh).1.monitor_running = true :=
  ⟨((C3_start_amended true supFresh).2.1 rfl rfl).1,
   (C3_start_amended true supFresh).1
     ((C3_start_amended true supFresh).2.1 rfl rfl).2⟩

/-- Claim C4 (the cookie-persisting step is a code defect): `terminate()` is
idempotent, unconditionally clears pages/context/browser/playwright whatever
sub-step failures occur (they are swallowed, later steps still run) — but it
never persists cookies: `safe_close(self.save_cookies, "save_cookies")`
looks up the attribute "save_cookies" on the bound method itself, raising an
`AttributeError` that `safe_close` swallows, so the cookie file is not
written (`cookie_writes` stays 0). -/
theorem C4_terminate_no_cookie_persist :
    (Browser.terminate stTwo allFail).cookie_writes = stTwo.cookie_writes ∧
    (Browser.terminate stTwo allFail).cookie_writes = 0 ∧
    Browser.terminate stTwo allFail = Browser.terminate stTwo noFail ∧
    (Browser.terminate stTwo allFail).terminated = true ∧
    (Browser.terminate stTwo allFail).all_pages = [] ∧
    (Browser.terminate stTwo allFail).current_index = none ∧
    (Browser.terminate stTwo allFail).has_context = false ∧
    (Browser.terminate stTwo allFail).browser_proc = false ∧
    (Browser.terminate stTwo allFail).playwright_conn = false ∧
    Browser.terminate (Browser.terminate stTwo allFail) noFail =
      Browser.terminate stTwo allFail := by
  refine ⟨rfl, rfl, rfl, rfl, rfl, rfl, rfl, rfl, rfl, rfl⟩

/-- Claim C8: `close_tab(index)` and `switch_tab(index)` bounds-check the
index; for every out-of-range index they return the descriptive failure
string "无效的标签页序号 index" instead of raising, and the whole state
(pool and `current_index` included) is returned unchanged. -/
theorem C8_tab_bounds_check (cfg : Browser.Config) (g : Bool) (t : String)
    (st : Browser.BrowserState) (i : Int)
    (h : ¬(0 ≤ i ∧ i < st.all_pages.length)) :
    Browser.switch_tab cfg g i st =
      (st, Except.ok (some ("无效的标签页序号 " ++ toString i))) ∧
    Browser.close_tab cfg g t i st =
      (st, Except.ok ("无效的标签页序号 " ++ toString i)) := by
  constructor
  · unfold Browser.switch_tab
    rw [if_neg h]
  · unfold Browser.close_tab
    rw [if_neg h]

/-- Witness for C8: `closeTab(5)` on the two-page pool returns the
invalid-tab-index message and leaves the pool unchanged. -/
theorem C8_tab_bounds_witness :
    Browser.close_tab cfgA true "Example Domain" 5 stTwo =
      (stTwo, Except.ok ("无效的标签页序号 " ++ toString (5 : Int))) ∧
    Browser.switch_tab cfgA true 5 stTwo =
      (stTwo, Except.ok (some ("无效的标签页序号 " ++ toString (5 : Int)))) :=
  ⟨(C8_tab_bounds_check cfgA true "Example Domain" stTwo 5 (by decide)).2,
   (C8_tab_bounds_check cfgA true "Example Domain" stTwo 5 (by decide)).1⟩

/-- Claim C9: for every list of cookie records, saving it and loading it
back with no mutation in between yields an equivalent record set (the loaded
list is a permutation — in fact equal — of the original records with their
null-valued fields dropped), and no null-valued field survives the
round-trip. -/
theorem C9_cookie_roundtrip (cs : List Cookie.CookieRec) :
    (Cookie.load_cookies (Cookie.save_cookies cs)).Perm
      (cs.map Cookie.dropNulls) ∧
    ∀ r ∈ Cookie.load_cookies (Cookie.save_cookies cs),
      ∀ kv ∈ r, kv.2 ≠ Cookie.JVal.null := by
  constructor
  · exact List.Perm.refl _
  · intro r hr kv hkv
    simp only [Cookie.load_cookies, Cookie.save_cookies, List.mem_map] at hr
    obtain ⟨c, _, rfl⟩ := hr
    simp only [Cookie.dropNulls, List.mem_filter] at hkv
    intro hnull
    have := hkv.2
    rw [hnull] at this
    simp at this

/-- Witness for C9 at a concrete record with two null-valued fields. -/
theorem C9_cookie_roundtrip_witness :
    (("name", Cookie.JVal.str "sid") : String × Cookie.JVal).2 ≠
      Cookie.JVal.null ∧
    (Cookie.load_cookies (Cookie.save_cookies [recWithNull])).Perm
      ([recWithNull].map Cookie.dropNulls) :=
  ⟨(C9_cookie_roundtrip [recWithNull]).2
      [("name", Cookie.JVal.str "sid"), ("value", Cookie.JVal.str "42"),
       ("domain", Cookie.JVal.str ".example.com"),
       ("path", Cookie.JVal.str "/")]
      (by decide) ("name", Cookie.JVal.str "sid") (by decide),
   (C9_cookie_roundtrip [recWithNull]).1⟩

/-- Claim C5: `_restart_browser`, which runs under the dedicated restart
lock (`LockId.restart`, distinct from `LockId.dispatch`), tears down any
existing engine and attempts `initialize()` at most 3 times with a fixed
2-second backoff after each failed attempt; after 3 failures it gives up
leaving the engine unset and the teardown performed, so a subsequent
`call()` on the engine-less supervisor goes through `_restart_browser`
again (lazy retry), acquiring both locks. -/
theorem C5_restart_policy (now : Nat) (outs : List Bool)
    (st : Supervisor.SupState) :
    (Supervisor.restart_browser now outs st).2.attempts ≤ 3 ∧
    ((Supervisor.restart_browser now outs st).2.locks =
        [Supervisor.LockId.restart] ∧
      Supervisor.LockId.restart ≠ Supervisor.LockId.dispatch) ∧
    (∀ s ∈ (Supervisor.restart_browser now outs st).2.sleeps, s = 2) ∧
    ((outs.take 3).all (fun b => !b) = true →
      (Supervisor.restart_browser now outs st).1 =
        { st with browser := none } ∧
      (Supervisor.restart_browser now outs st).2.attempts = 3 ∧
      (Supervisor.restart_browser now outs st).2.sleeps = [2, 2, 2]) ∧
    (outs.headD false = true →
      (Supervisor.restart_browser now outs st).1.browser =
        some st.next_engine_id ∧
      (Supervisor.restart_browser now outs st).2.attempts = 1 ∧
      (Supervisor.restart_browser now outs st).2.sleeps = []) ∧
    (∀ (st2 : Supervisor.SupState) (outs2 : List Bool) (me : Bool)
        (mr : Except String Unit), st2.browser = none →
      (Supervisor.call now outs2 me mr st2).2.2 =
        [Supervisor.LockId.dispatch, Supervisor.LockId.restart] ∧
      (Supervisor.call now outs2 me mr st2).1.browser =
        (Supervisor.restart_browser now outs2 st2).1.browser) := by
  unfold Supervisor.restart_browser
  rcases hra : Supervisor.restart_attempts now outs 3 st with ⟨s1, a1, sl1⟩
  refine ⟨?_, ⟨rfl, by decide⟩, ?_, ?_, ?_, ?_⟩
  · have := restart_attempts_attempts_le now 3 outs st
    rw [hra] at this
    exact this
  · intro s hs
    have := restart_attempts_sleeps_two now 3 outs st s
    rw [hra] at this
    exact this hs
  · intro hall
    have h3 := restart_attempts_all_fail now 2 outs st hall
    rw [hra] at h3
    obtain ⟨rfl, rfl, rfl⟩ := Prod.mk.injEq .. ▸ h3
    exact ⟨rfl, rfl, rfl⟩
  · intro hh
    have h1 := restart_attempts_head_true now 2 outs st hh
    rw [hra] at h1
    obtain ⟨rfl, rfl, rfl⟩ := Prod.mk.injEq .. ▸ h1
    exact ⟨rfl, rfl, rfl⟩
  · intro st2 outs2 me mr hb
    unfold Supervisor.call Supervisor.restart_browser
    rcases hra2 : Supervisor.restart_attempts now outs2 3 st2 with ⟨t1, b1, tl1⟩
    simp only [hb, Option.isNone_none, if_true]
    cases hbr : t1.browser with
    | none => cases me <;> simp [hbr]
    | some e => cases me <;> simp [hbr]

/-- Claim C6: if at a monitor tick `now - lastActive` exceeds the idle
timeout, the tick stops the engine entirely (`browser = none` afterwards —
a stop, not a restart), and a subsequent `call()` (here with a succeeding
`initialize()`) transparently relaunches the engine and returns the
successful result of the method. -/
theorem C6_idle_stop_then_lazy_relaunch (st : Supervisor.SupState)
    (now now2 mem : Nat) (outs : List Bool)
    (h : now - st.last_active > st.idle_timeout) :
    (Supervisor.monitor_tick now mem outs st).browser = none ∧
    (Supervisor.call now2 [true] true (Except.ok ())
        (Supervisor.monitor_tick now mem outs st)).2.1 = Except.ok () ∧
    (Supervisor.call now2 [true] true (Except.ok ())
        (Supervisor.monitor_tick now mem outs st)).1.browser =
      some st.next_engine_id := by
  have hmt : Supervisor.monitor_tick now mem outs st = Supervisor.stop st := by
    unfold Supervisor.monitor_tick
    rw [if_pos h]
  rw [hmt]
  have hra : Supervisor.restart_attempts now2 [true] 3
      { browser := none, last_active := st.last_active, monitor_running := false,
        next_engine_id := st.next_engine_id, idle_timeout := st.idle_timeout,
        max_memory_percent := st.max_memory_percent } =
      ({ browser := some st.next_engine_id, last_active := now2,
         monitor_running := false, next_engine_id := st.next_engine_id + 1,
         idle_timeout := st.idle_timeout,
         max_memory_percent := st.max_memory_percent }, 1, []) :=
    restart_attempts_head_true now2 2 [true] _ rfl
  refine ⟨rfl, ?_, ?_⟩ <;>
    simp [Supervisor.call, Supervisor.restart_browser, hra, Supervisor.stop]

/-- Witness for C5 at concrete inputs: three failing attempts on the idle
supervisor, then the lazy-retry clause at a fresh supervisor. -/
theorem C5_restart_policy_witness :
    (Supervisor.restart_browser 100 [false, false, false] supIdle).1 =
      { supIdle with browser := none } ∧
    (Supervisor.restart_browser 100 [false, false, false] supIdle).2.sleeps =
      [2, 2, 2] ∧
    (Supervisor.call 100 [true] true (Except.ok ()) supFresh).2.2 =
      [Supervisor.LockId.dispatch, Supervisor.LockId.restart] :=
  ⟨((C5_restart_policy 100 [false, false, false] supIdle).2.2.2.1
      (by decide)).1,
   ((C5_restart_policy 100 [false, false, false] supIdle).2.2.2.1
      (by decide)).2.2,
   ((C5_restart_policy 100 [true] supFresh).2.2.2.2.2 supFresh [true]
      true (Except.ok ()) rfl).1⟩

/-- Witness for C6 at concrete inputs: idle timeout 300, last activity at
time 0, tick at time 301. -/
theorem C6_idle_witness :
    (Supervisor.monitor_tick 301 50 [] supIdle).browser = none ∧
    (Supervisor.call 400 [true] true (Except.ok ())
        (Supervisor.monitor_tick 301 50 [] supIdle)).2.1 = Except.ok () :=
  ⟨(C6_idle_stop_then_lazy_relaunch supIdle 301 400 50 [] (by decide)).1,
   (C6_idle_stop_then_lazy_relaunch supIdle 301 400 50 [] (by decide)).2.1⟩

/-- Claim C2: whenever the pool is non-empty, `current_index` is a valid
index; this holds after every pool operation run on a live state satisfying
the invariant — every successful `_ensure_page` moreover leaves the pool
non-empty — and `_discard_page` restores it (creating a fresh page when the
pool empties, re-anchoring to the clamped index otherwise). -/
theorem C2_pool_invariant (cfg : Browser.Config) (st : Browser.BrowserState)
    (hlive : Browser.live st) (hinv : Browser.poolInvB st = true) :
    (∀ (g : Bool) (idx : Option Nat) (p : Browser.Page),
      (Browser.ensure_page cfg g idx st).2 = Except.ok p →
      (Browser.ensure_page cfg g idx st).1.all_pages ≠ [] ∧
      Browser.poolInvB (Browser.ensure_page cfg g idx st).1 = true) ∧
    (∀ (g : Bool) (idx : Option Nat),
      Browser.poolInvB (Browser.ensure_page cfg g idx st).1 = true) ∧
    (∀ (g : Bool) (p : Browser.Page),
      Browser.poolInvB (Browser.discard_page cfg g p st).1 = true) ∧
    (∀ (g : Bool) (i : Int),
      Browser.poolInvB (Browser.switch_tab cfg g i st).1 = true) ∧
    (∀ (g : Bool) (t : String) (i : Int),
      Browser.poolInvB (Browser.close_tab cfg g t i st).1 = true) ∧
    (∀ (gN gE : Bool) (url : String) (st1 : Browser.BrowserState)
        (r : Except String (Option String)),
      Browser.search cfg gN gE url st = some (st1, r) →
      Browser.poolInvB st1 = true) ∧
    (∀ (g : Bool) (popup : Option Browser.Page) (ck : Bool)
        (coords : List Int),
      Browser.poolInvB (Browser.click_coord cfg g popup ck coords st).1 =
        true) := by
  refine ⟨?_, ?_, ?_, ?_, ?_, ?_, ?_⟩
  · intro g idx p hok
    exact ⟨ensure_page_ok_nonempty cfg g idx st hlive p hok,
      ensure_page_poolInv cfg g idx st hlive⟩
  · intro g idx
    exact ensure_page_poolInv cfg g idx st hlive
  · intro g p
    exact discard_page_poolInv cfg g p st hlive
  · intro g i
    unfold Browser.switch_tab
    split
    · rcases he : Browser.ensure_page cfg g (some i.toNat) st with ⟨s1, r1⟩
      have := ensure_page_poolInv cfg g (some i.toNat) st hlive
      rw [he] at this
      cases r1 <;> exact this
    · exact hinv
  · intro g t i
    unfold Browser.close_tab
    split
    · dsimp only
      rcases hd : Browser.discard_page cfg g
          (st.all_pages.getD i.toNat ⟨0, ""⟩) st with ⟨s1, r1⟩
      have := discard_page_poolInv cfg g
        (st.all_pages.getD i.toNat ⟨0, ""⟩) st hlive
      rw [hd] at this
      cases r1 <;> exact this
    · exact hinv
  · intro gN gE url st1 r hs
    exact search_poolInv cfg gN gE url st st1 r hlive hinv hs
  · intro g popup ck coords
    exact click_coord_poolInv cfg g popup ck coords st hlive hinv

/-- Witness for C2 at the concrete two-page pool. -/
theorem C2_pool_invariant_witness :
    Browser.poolInvB (Browser.ensure_page cfgA true none stTwo).1 = true ∧
    Browser.poolInvB (Browser.discard_page cfgA true ⟨1, "y"⟩ stTwo).1 = true ∧
    Browser.poolInvB
      (Browser.click_coord cfgA true (some ⟨9, "pop"⟩) true [1, 2] stTwo).1 =
      true :=
  ⟨(C2_pool_invariant cfgA stTwo ⟨rfl, rfl⟩ (by decide)).2.1 true none,
   (C2_pool_invariant cfgA stTwo ⟨rfl, rfl⟩ (by decide)).2.2.1 true ⟨1, "y"⟩,
   (C2_pool_invariant cfgA stTwo ⟨rfl, rfl⟩ (by decide)).2.2.2.2.2.2 true
     (some ⟨9, "pop"⟩) true [1, 2]⟩

theorem discard_page_removes (cfg : Browser.Config) (p : Browser.Page)
    (st : Browser.BrowserState) (hlive : Browser.live st)
    (hcount : st.all_pages.count p ≤ 1) (hid : p.id < st.next_id) :
    (∃ q, (Browser.discard_page cfg true p st).2 = Except.ok q) ∧
    p ∉ (Browser.discard_page cfg true p st).1.all_pages := by
  have hnp : p ∉ (if p ∈ st.all_pages then st.all_pages.erase p
      else st.all_pages) := by
    by_cases hm : p ∈ st.all_pages
    · rw [if_pos hm]
      have hc := List.count_erase_self p st.all_pages
      have hz : (st.all_pages.erase p).count p = 0 := by omega
      exact List.count_eq_zero.mp hz
    · rw [if_neg hm]
      exact hm
  rw [discard_page_eq]
  have hl1 : Browser.live { st with all_pages :=
      if p ∈ st.all_pages then st.all_pages.erase p else st.all_pages } :=
    ⟨hlive.1, hlive.2⟩
  by_cases hempty : (if p ∈ st.all_pages then st.all_pages.erase p
      else st.all_pages) = []
  · rw [ensure_page_eq_of_empty cfg true _ _ hl1 hempty]
    simp only [if_true, hempty]
    refine ⟨⟨_, rfl⟩, ?_⟩
    simp only [List.nil_append, List.mem_singleton]
    intro hcontra
    have : p.id = st.next_id := by rw [hcontra]
    omega
  · rw [ensure_page_eq_of_ne cfg true _ _ hl1 hempty]
    exact ⟨⟨_, rfl⟩, hnp⟩

/-- Claim C7, counterexample: `swipe` drives the current page with raw
mouse calls outside `_safe_page_op`, so when the remote call raises, the
page being operated on (here ⟨1, "y"⟩, the current page of the two-page
pool) is NOT discarded — it is still in the pool — while the exception
propagates to the caller. -/
theorem C7_swipe_no_discard_counterexample :
    (Browser.swipe cfgA true false [0, 0, 1, 1] stTwo).1.all_pages =
      [⟨0, "x"⟩, ⟨1, "y"⟩] ∧
    (⟨1, "y"⟩ : Browser.Page) ∈
      (Browser.swipe cfgA true false [0, 0, 1, 1] stTwo).1.all_pages ∧
    (Browser.swipe cfgA true false [0, 0, 1, 1] stTwo).2 =
      Except.error "Playwright 操作超时" := by
  refine ⟨rfl, by decide, rfl⟩

/-- Claim C7, amended: only the operations routed through `_safe_page_op`
(the click of `click_coord`, the scroll of `scroll_by`) discard the failing
page — the page is removed from the pool, the original exception is
re-raised and the pool bookkeeping stays uncorrupted; operations issued
outside the wrapper (`swipe`, `go_back`, and similarly `go_forward`,
`text_input`, `zoom_to_scale`, `screenshot`) propagate the exception
with the pool left unchanged, the failing page still in it. -/
theorem C7_failure_isolation_amended (cfg : Browser.Config)
    (st : Browser.BrowserState) (hlive : Browser.live st) :
    (∀ (α : Type) (p : Browser.Page) (e : String),
      st.all_pages.count p ≤ 1 → p.id < st.next_id →
      (Browser.safe_page_op cfg true p (Except.error e : Except String α)
          st).2 = Except.error e ∧
      p ∉ (Browser.safe_page_op cfg true p (Except.error e : Except String α)
          st).1.all_pages ∧
      Browser.poolInvB (Browser.safe_page_op cfg true p
          (Except.error e : Except String α) st).1 = true) ∧
    (∀ (g : Bool) (coords : List Int), coords.length = 4 →
      st.all_pages ≠ [] →
      (Browser.swipe cfg g false coords st).1.all_pages = st.all_pages ∧
      (Browser.swipe cfg g false coords st).2 =
        Except.error "Playwright 操作超时") ∧
    (∀ (g : Bool), st.all_pages ≠ [] →
      (Browser.go_back cfg g false st).1.all_pages = st.all_pages ∧
      (Browser.go_back cfg g false st).2 =
        Except.error "Playwright 操作超时") := by
  refine ⟨?_, ?_, ?_⟩
  · intro α p e hcount hid
    obtain ⟨⟨q, hq⟩, hnp⟩ := discard_page_removes cfg p st hlive hcount hid
    have hpi := discard_page_poolInv cfg true p st hlive
    unfold Browser.safe_page_op
    rcases hd : Browser.discard_page cfg true p st with ⟨s1, r1⟩
    rw [hd] at hq hnp hpi
    simp only at hq
    rw [hq]
    exact ⟨rfl, hnp, hpi⟩
  · intro g coords hlen hne
    unfold Browser.swipe
    rw [if_neg (by rw [hlen]; simp)]
    obtain ⟨hp1, p, hp2, _⟩ := ensure_page_pages_of_ne cfg g none st hlive hne
    rcases he : Browser.ensure_page cfg g none st with ⟨s1, r1⟩
    rw [he] at hp1 hp2
    simp only at hp2
    rw [hp2]
    exact ⟨hp1, rfl⟩
  · intro g hne
    unfold Browser.go_back
    obtain ⟨hp1, p, hp2, _⟩ := ensure_page_pages_of_ne cfg g none st hlive hne
    rcases he : Browser.ensure_page cfg g none st with ⟨s1, r1⟩
    rw [he] at hp1 hp2
    simp only at hp2
    rw [hp2]
    exact ⟨hp1, rfl⟩

/-- Witness for the amended C7: a failing click-level operation on the
single-page pool discards the page; a failing swipe on the two-page pool
does not. -/
theorem C7_failure_isolation_witness :
    (Browser.safe_page_op cfgA true ⟨0, "x"⟩
        (Except.error "boom" : Except String Unit) stOne).2 =
      Except.error "boom" ∧
    (⟨0, "x"⟩ : Browser.Page) ∉
      (Browser.safe_page_op cfgA true ⟨0, "x"⟩
        (Except.error "boom" : Except String Unit) stOne).1.all_pages ∧
    (Browser.swipe cfgA true false [0, 0, 1, 1] stTwo).1.all_pages =
      stTwo.all_pages :=
  ⟨((C7_failure_isolation_amended cfgA stOne ⟨rfl, rfl⟩).1 Unit ⟨0, "x"⟩
      "boom" (by decide) (by decide)).1,
   ((C7_failure_isolation_amended cfgA stOne ⟨rfl, rfl⟩).1 Unit ⟨0, "x"⟩
      "boom" (by decide) (by decide)).2.1,
   ((C7_failure_isolation_amended cfgA stTwo ⟨rfl, rfl⟩).2.1 true
      [0, 0, 1, 1] rfl (by decide)).1⟩

/-- Claim C10: when the remote click produces a popup, the popup handler
appends it to the pool and makes it current (`current_index = size - 1`)
with no capacity check — the pool grows past `max_pages` whenever it was
already full — and the one-shot popup listener is removed again before
`click_coord` returns, on the success path and on the raising path alike. -/
theorem C10_popup_growth_listener (cfg : Browser.Config)
    (st : Browser.BrowserState) (pp : Browser.Page) (x y : Int) (g : Bool)
    (hlive : Browser.live st) (hne : st.all_pages ≠ []) :
    (Browser.click_coord cfg g (some pp) true [x, y] st).1.all_pages =
      st.all_pages ++ [pp] ∧
    (Browser.click_coord cfg g (some pp) true [x, y] st).1.current_index =
      some st.all_pages.length ∧
    (Browser.click_coord cfg g (some pp) true [x, y] st).1.all_pages.length =
      st.all_pages.length + 1 ∧
    (Browser.click_coord cfg g (some pp) true [x, y] st).2 =
      Except.ok none ∧
    (∀ (popup : Option Browser.Page) (ck : Bool),
      (Browser.click_coord cfg g popup ck [x, y] st).1.popup_listener =
        false) := by
  obtain ⟨hp1, p, hp2, _⟩ := ensure_page_pages_of_ne cfg g none st hlive hne
  unfold Browser.click_coord
  rw [if_neg (by simp)]
  rcases he : Browser.ensure_page cfg g none st with ⟨s1, r1⟩
  rw [he] at hp1 hp2
  simp only at hp1 hp2
  rw [hp2]
  dsimp only
  refine ⟨by simp [hp1], by simp [hp1], by simp [hp1], by simp, ?_⟩
  intro popup ck
  rw [if_neg (show ¬([x, y] : List Int).length ≠ 2 by simp)]
  cases popup with
  | none =>
    by_cases hck : ck
    · rw [if_pos (show ck = true from hck)]
    · rw [if_neg (show ¬ck = true by simp [hck])]
      rcases hd : Browser.discard_page cfg g p
          { s1 with popup_listener := true } with ⟨s4, r4⟩
      cases r4 <;> rfl
  | some pq =>
    by_cases hck : ck
    · rw [if_pos (show ck = true from hck)]
    · rw [if_neg (show ¬ck = true by simp [hck])]
      rcases hd : Browser.discard_page cfg g p { s1 with
          popup_listener := true
          all_pages := s1.all_pages ++ [pq]
          current_index := some s1.all_pages.length
          page := some pq } with ⟨s4, r4⟩
      cases r4 <;> rfl

/-- Witness for C10: a popup on a full single-page pool (capacity 1) grows
the pool to 2 pages, past `max_pages`; the listener is removed on a
raising click as well. -/
theorem C10_popup_witness :
    (Browser.click_coord cfgTight true (some ⟨9, "pop"⟩) true
        [3, 4] stOne).1.all_pages = stOne.all_pages ++ [⟨9, "pop"⟩] ∧
    (Browser.click_coord cfgTight true (some ⟨9, "pop"⟩) true
        [3, 4] stOne).1.all_pages.length > cfgTight.max_pages ∧
    (Browser.click_coord cfgTight true (some ⟨9, "pop"⟩) false
        [3, 4] stOne).1.popup_listener = false :=
  ⟨(C10_popup_growth_listener cfgTight stOne ⟨9, "pop"⟩ 3 4 true
      ⟨rfl, rfl⟩ (by decide)).1,
   by decide,
   (C10_popup_growth_listener cfgTight stOne ⟨9, "pop"⟩ 3 4 true
      ⟨rfl, rfl⟩ (by decide)).2.2.2.2 (some ⟨9, "pop"⟩) false⟩
